import Mathlib

/-!
Verification of the workplan-validation and radar-chart construction core of
the PositionDescription repository (`src/chart.py`; `validate_workplan` is
duplicated verbatim in `src/positions/scripts/helper_module.py`, so a single
embedding covers both copies).

The embedding models the dynamically typed Python values that can appear as
workplan dictionary values, the `validate_workplan` function (returning
`Except` to model raise-vs-return), and `position_radarchart` (whose `try`
block returns any caught exception as a value, modelled by `ChartResult`).
-/

namespace PositionDescription

/-- A Python value that may appear as a value of the workplan dictionary.
`vInt` is an object of exact type `int`; `vBool` is a `bool` (in Python a
subclass of `int`, so `isinstance(b, int)` holds while `type(b) is int`
does not); the remaining constructors are objects of other types. -/
inductive Value where
  | vInt (n : Int)
  | vBool (b : Bool)
  | vFloat
  | vStr (s : String)
  | vOther (tyName : String)
deriving DecidableEq, Repr

/-- Python `type(value) is int`: true exactly for objects of exact type `int`. -/
def Value.typeIsInt : Value → Bool
  | Value.vInt _ => true
  | _ => false

/-- Python `isinstance(value, int)`: true for `int` objects and for `bool`
objects, since `bool` subclasses `int`. -/
def Value.isInstInt : Value → Bool
  | Value.vInt _ => true
  | Value.vBool _ => true
  | _ => false

/-- The name of the Python type of the value, as reported in error messages. -/
def Value.typeName : Value → String
  | Value.vInt _ => "int"
  | Value.vBool _ => "bool"
  | Value.vFloat => "float"
  | Value.vStr _ => "str"
  | Value.vOther t => t

/-- The numeric value used by `sum` and `max` over workplan values
(only ever consulted on paths where the value is an `int` or `bool`). -/
def Value.intVal : Value → Int
  | Value.vInt n => n
  | Value.vBool b => if b then 1 else 0
  | _ => 0

/-- The argument passed to `validate_workplan`: either a Python `dict`
(whose items are kept in insertion order, as Python dicts do) or an object
of some other type, carrying its type name for the error message. -/
inductive PyObj where
  | dict (entries : List (String × Value))
  | nonDict (tyName : String)
deriving DecidableEq, Repr

/-- The name of the Python type of the argument (`type(workplan)`). -/
def PyObj.typeName : PyObj → String
  | PyObj.dict _ => "dict"
  | PyObj.nonDict t => t

/-- The three error classes raised by `validate_workplan`
(`src/chart.py` lines 9-19), each carrying the data interpolated into its
message: the actual type received, the list of offending value types, or
the actual sum. -/
inductive ValidationError where
  | invalidParameterType (received : String)
  | valuesNotTypeInt (offendingTypes : List String)
  | valuesDontSumTo100 (actualSum : Int)
deriving DecidableEq, Repr

/-- The `error_msg` string attached to each raised error, mirroring the
`.format` calls in `src/chart.py` lines 44, 48-49 and 53. -/
def errorMessage : ValidationError → String
  | ValidationError.invalidParameterType received =>
      "The workplan parameter expects a dictionary, but received " ++ received ++ "."
  | ValidationError.valuesNotTypeInt offendingTypes =>
      "All workplan values must be integers, instead received type(s): "
        ++ toString offendingTypes ++ "."
  | ValidationError.valuesDontSumTo100 actualSum =>
      "The workplan parameter values should total 100, instead sums to "
        ++ toString actualSum ++ "."

/-- `sum(workplan.values())`. -/
def intSum (values : List Value) : Int :=
  (values.map Value.intVal).sum

/-- `validate_workplan` (`src/chart.py` lines 21-54): checks in order that
the argument is a dict, that every value has exact type `int`, and that the
values sum to 100; returns `True` on success and raises a typed error
otherwise.  The filter in the `ValuesNotTypeInt` message uses
`isinstance(value, int)` while the check itself uses `type(value) is int`,
exactly as in the source. -/
def validate_workplan : PyObj → Except ValidationError Bool
  | PyObj.dict entries =>
      let values := entries.map Prod.snd
      if values.all Value.typeIsInt then
        if intSum values = 100 then
          Except.ok true
        else
          Except.error (ValidationError.valuesDontSumTo100 (intSum values))
      else
        Except.error (ValidationError.valuesNotTypeInt
          ((values.filter (fun v => !v.isInstInt)).map Value.typeName))
  | PyObj.nonDict tyName =>
      Except.error (ValidationError.invalidParameterType tyName)

/-- `max(r_values)`: `some` of the maximum, or `none` when the list is empty
(in Python, `max` of an empty sequence raises `ValueError`). -/
def maxOfValues (values : List Value) : Option Int :=
  match values.map Value.intVal with
  | [] => none
  | x :: xs => some (xs.foldl max x)

/-- The `go.Scatterpolar` trace built in `src/chart.py` lines 98-105. -/
structure Scatterpolar where
  r : List Value
  theta : List String
  fill : String
  fillcolor : String
  lineColor : String
deriving DecidableEq, Repr

/-- The `radialaxis` sub-dictionary of the layout (lines 111-114). -/
structure RadialAxis where
  visible : Bool
  color : String
  linecolor : String
  range : List Int
deriving DecidableEq, Repr

/-- The `layout` dictionary built in `src/chart.py` lines 107-118. -/
structure ChartLayout where
  title : String
  fontColor : String
  radialaxis : RadialAxis
  showlegend : Bool
  hovermode : String
deriving DecidableEq, Repr

/-- The figure dictionary `{'data': ..., 'layout': ...}` (line 120). -/
structure Fig where
  data : List Scatterpolar
  layout : ChartLayout
deriving DecidableEq, Repr

/-- What the `try` block of `position_radarchart` returns: either the figure,
or — because `except Exception as e: return e` returns any caught exception
as a value — a caught exception, identified by its Python class name. -/
inductive ChartResult where
  | figure (f : Fig)
  | caughtException (className : String)
deriving DecidableEq, Repr

/-- The `try` block of `position_radarchart` (`src/chart.py` lines 91-124):
extracts labels and values in insertion order, computes the axis range
`[0, max(r_values) + 5]`, and assembles the figure; any exception raised
inside is caught by `except Exception as e: return e` and returned as a
value (`ValueError` from `max` on an empty sequence, `AttributeError` from
`.keys()` on a non-dict). -/
def tryBuild (job_title : String) (workplan : PyObj) : ChartResult :=
  match workplan with
  | PyObj.nonDict _ => ChartResult.caughtException "AttributeError"
  | PyObj.dict entries =>
      let responsibilities := entries.map Prod.fst
      let r_values := entries.map Prod.snd
      match maxOfValues r_values with
      | none => ChartResult.caughtException "ValueError"
      | some m =>
          let axis_range := [0, m + 5]
          ChartResult.figure
            { data := [{ r := r_values
                         theta := responsibilities
                         fill := "toself"
                         fillcolor := "#a1d99b"
                         lineColor := "#a1d99b" }]
              layout := { title := job_title ++ "<br>Responsibilities"
                          fontColor := "#a1d99b"
                          radialaxis := { visible := true
                                          color := "black"
                                          linecolor := "green"
                                          range := axis_range }
                          showlegend := false
                          hovermode := "closest" } }

/-- `position_radarchart` (`src/chart.py` lines 61-128): validates the
workplan (errors raised by validation propagate out of the `if` condition),
runs the `try` block when validation returned a truthy value, and otherwise
takes the `else` branch (lines 126-128), which raises
`InvalidParameterType`. -/
def position_radarchart (job_title : String) (workplan : PyObj) :
    Except ValidationError ChartResult :=
  match validate_workplan workplan with
  | Except.error e => Except.error e
  | Except.ok b =>
      if b then
        Except.ok (tryBuild job_title workplan)
      else
        Except.error (ValidationError.invalidParameterType workplan.typeName)

/-- The variant of `position_radarchart` with the dead `else` branch of
`src/chart.py` lines 126-128 removed: the `try` block runs whenever
validation returned without raising.  `position_radarchart` is proved
extensionally equal to it, which is the precise sense in which the `else`
branch is unreachable. -/
def position_radarchart_no_else (job_title : String) (workplan : PyObj) :
    Except ValidationError ChartResult :=
  match validate_workplan workplan with
  | Except.error e => Except.error e
  | Except.ok _ => Except.ok (tryBuild job_title workplan)

/-- The title carried by the figure a `position_radarchart` call produced,
when it produced one. -/
def chartTitle : Except ValidationError ChartResult → Option String
  | Except.ok (ChartResult.figure f) => some f.layout.title
  | _ => none

/-- Whether a `position_radarchart` call produced a figure (reached and
completed chart construction). -/
def isFigure : Except ValidationError ChartResult → Bool
  | Except.ok (ChartResult.figure _) => true
  | _ => false

/-- The workplan of the worked example in the spec. -/
def autoMechanicWorkplan : List (String × Value) :=
  [("repair", Value.vInt 40), ("inspection", Value.vInt 35),
   ("paperwork", Value.vInt 25)]

/-! ### Helper lemmas -/

lemma typeIsInt_imp_isInstInt (v : Value) (h : v.typeIsInt = true) :
    v.isInstInt = true := by
  cases v <;> simp_all [Value.typeIsInt, Value.isInstInt]

lemma validate_dict_def (entries : List (String × Value)) :
    validate_workplan (PyObj.dict entries) =
      (if (entries.map Prod.snd).all Value.typeIsInt then
        (if intSum (entries.map Prod.snd) = 100 then Except.ok true
         else Except.error
           (ValidationError.valuesDontSumTo100 (intSum (entries.map Prod.snd))))
       else Except.error (ValidationError.valuesNotTypeInt
         (((entries.map Prod.snd).filter (fun v => !v.isInstInt)).map
           Value.typeName))) := rfl

lemma validate_ok_true (wp : PyObj) (b : Bool)
    (h : validate_workplan wp = Except.ok b) : b = true := by
  cases wp with
  | nonDict t => simp [validate_workplan] at h
  | dict entries =>
      rw [validate_dict_def] at h
      split_ifs at h
      simp_all

lemma validate_dict_ok_elim (entries : List (String × Value))
    (h : validate_workplan (PyObj.dict entries) = Except.ok true) :
    (entries.map Prod.snd).all Value.typeIsInt = true ∧
      intSum (entries.map Prod.snd) = 100 := by
  rw [validate_dict_def] at h
  split_ifs at h with h1 h2
  exact ⟨h1, h2⟩

lemma maxOfValues_cons (p : String × Value) (es : List (String × Value)) :
    maxOfValues ((p :: es).map Prod.snd) =
      some (((es.map Prod.snd).map Value.intVal).foldl max p.snd.intVal) := rfl

lemma validate_ok_max (entries : List (String × Value))
    (h : validate_workplan (PyObj.dict entries) = Except.ok true) :
    ∃ m, maxOfValues (entries.map Prod.snd) = some m := by
  obtain ⟨_, h2⟩ := validate_dict_ok_elim entries h
  cases entries with
  | nil => simp [intSum] at h2
  | cons p es => exact ⟨_, maxOfValues_cons p es⟩

lemma build_spec (title : String) (entries : List (String × Value)) (m : Int)
    (h : validate_workplan (PyObj.dict entries) = Except.ok true)
    (hm : maxOfValues (entries.map Prod.snd) = some m) :
    position_radarchart title (PyObj.dict entries) =
      Except.ok (ChartResult.figure
        ⟨[⟨entries.map Prod.snd, entries.map Prod.fst,
           "toself", "#a1d99b", "#a1d99b"⟩],
         ⟨title ++ "<br>Responsibilities", "#a1d99b",
          ⟨true, "black", "green", [0, m + 5]⟩, false, "closest"⟩⟩) := by
  simp only [position_radarchart, h, if_true, tryBuild, hm]

lemma autoMechanic_validate_ok :
    validate_workplan (PyObj.dict autoMechanicWorkplan) = Except.ok true := by
  rw [validate_dict_def, if_pos (by decide), if_pos (by decide)]

/-! ### Claims -/

/-- C1: for every input that is a dict whose values all have exact type
`int` and sum to exactly 100, `validate_workplan` returns `True`
(this is the single copy embedding both `src/chart.py` and the verbatim
duplicate in `src/positions/scripts/helper_module.py`). -/
theorem claim_C1 (entries : List (String × Value))
    (h1 : (entries.map Prod.snd).all Value.typeIsInt = true)
    (h2 : intSum (entries.map Prod.snd) = 100) :
    validate_workplan (PyObj.dict entries) = Except.ok true := by
  rw [validate_dict_def, if_pos h1, if_pos h2]

/-- Witness for C1: the spec's worked example `40 + 35 + 25 = 100`
validates. -/
theorem claim_C1_witness :
    validate_workplan (PyObj.dict autoMechanicWorkplan) = Except.ok true :=
  claim_C1 autoMechanicWorkplan (by decide) (by decide)

lemma autoMechanic_theta_r :
    ∃ f : Fig,
      position_radarchart "Auto Mechanic II" (PyObj.dict autoMechanicWorkplan)
          = Except.ok (ChartResult.figure f) ∧
      f.data.map Scatterpolar.theta = [["repair", "inspection", "paperwork"]] ∧
      f.data.map (fun t => t.r.map Value.intVal) = [[40, 35, 25]] :=
  ⟨_, build_spec "Auto Mechanic II" autoMechanicWorkplan 40
    autoMechanic_validate_ok rfl, rfl, rfl⟩

/-- C2: for every workplan that passes validation, the figure's single
trace carries `theta` (the category labels) equal to the workplan's keys in
insertion order and `r` (the values) equal to the workplan's values in the
corresponding order; and on the spec's worked example the categories are
`["repair", "inspection", "paperwork"]` and the values `[40, 35, 25]`. -/
theorem claim_C2 :
    (∀ (title : String) (entries : List (String × Value)),
      validate_workplan (PyObj.dict entries) = Except.ok true →
      ∃ f : Fig, position_radarchart title (PyObj.dict entries) =
          Except.ok (ChartResult.figure f) ∧
        f.data.map Scatterpolar.theta = [entries.map Prod.fst] ∧
        f.data.map Scatterpolar.r = [entries.map Prod.snd]) ∧
    (∃ f : Fig,
      position_radarchart "Auto Mechanic II" (PyObj.dict autoMechanicWorkplan)
          = Except.ok (ChartResult.figure f) ∧
      f.data.map Scatterpolar.theta = [["repair", "inspection", "paperwork"]] ∧
      f.data.map (fun t => t.r.map Value.intVal) = [[40, 35, 25]]) := by
  constructor
  · intro title entries h
    obtain ⟨m, hm⟩ := validate_ok_max entries h
    exact ⟨_, build_spec title entries m h hm, rfl, rfl⟩
  · exact autoMechanic_theta_r

/-- Witness for C2: the general part applied to the one-entry workplan
`[("a", 100)]`. -/
theorem claim_C2_witness :
    ∃ f : Fig, position_radarchart "T" (PyObj.dict [("a", Value.vInt 100)]) =
        Except.ok (ChartResult.figure f) ∧
      f.data.map Scatterpolar.theta = [["a"]] ∧
      f.data.map Scatterpolar.r = [[Value.vInt 100]] :=
  claim_C2.1 "T" [("a", Value.vInt 100)]
    (by rw [validate_dict_def, if_pos (by decide), if_pos (by decide)])

/-- C3: for every workplan that passes validation, the radial-axis range of
the built figure is exactly `[0, max(values) + 5]`. -/
theorem claim_C3 (title : String) (entries : List (String × Value))
    (h : validate_workplan (PyObj.dict entries) = Except.ok true) :
    ∃ (f : Fig) (m : Int),
      position_radarchart title (PyObj.dict entries) =
        Except.ok (ChartResult.figure f) ∧
      maxOfValues (entries.map Prod.snd) = some m ∧
      f.layout.radialaxis.range = [0, m + 5] := by
  obtain ⟨m, hm⟩ := validate_ok_max entries h
  exact ⟨_, m, build_spec title entries m h hm, hm, rfl⟩

/-- Witness for C3: on the spec's worked example the range is
`[0, 40 + 5] = [0, 45]`. -/
theorem claim_C3_witness :
    ∃ (f : Fig) (m : Int),
      position_radarchart "Auto Mechanic II" (PyObj.dict autoMechanicWorkplan)
          = Except.ok (ChartResult.figure f) ∧
      maxOfValues (autoMechanicWorkplan.map Prod.snd) = some m ∧
      f.layout.radialaxis.range = [0, m + 5] :=
  claim_C3 "Auto Mechanic II" autoMechanicWorkplan autoMechanic_validate_ok

/-- C4: for every dict whose values all have exact type `int` but sum to a
value other than 100, `validate_workplan` raises `ValuesDontSumTo100`
carrying the actual sum, whose message states that sum; the empty dict
(sum 0) is rejected this way already inside `position_radarchart`; and no
call of `position_radarchart` ever returns a caught exception, so `max` is
never evaluated on an empty sequence. -/
theorem claim_C4 :
    (∀ entries : List (String × Value),
      (entries.map Prod.snd).all Value.typeIsInt = true →
      intSum (entries.map Prod.snd) ≠ 100 →
      validate_workplan (PyObj.dict entries) = Except.error
        (ValidationError.valuesDontSumTo100 (intSum (entries.map Prod.snd)))) ∧
    (∀ s : Int, errorMessage (ValidationError.valuesDontSumTo100 s) =
      "The workplan parameter values should total 100, instead sums to "
        ++ toString s ++ ".") ∧
    (∀ title : String, position_radarchart title (PyObj.dict []) =
      Except.error (ValidationError.valuesDontSumTo100 0)) ∧
    (∀ (title : String) (wp : PyObj) (s : String),
      position_radarchart title wp ≠
        Except.ok (ChartResult.caughtException s)) := by
  refine ⟨fun entries h1 h2 => ?_, fun s => rfl, fun title => rfl, ?_⟩
  · rw [validate_dict_def, if_pos h1, if_neg h2]
  · intro title wp s hcontra
    cases wp with
    | nonDict t => simp [position_radarchart, validate_workplan] at hcontra
    | dict entries =>
        cases hv : validate_workplan (PyObj.dict entries) with
        | error e => simp [position_radarchart, hv] at hcontra
        | ok b =>
            cases validate_ok_true _ b hv
            obtain ⟨m, hm⟩ := validate_ok_max entries hv
            rw [build_spec title entries m hv hm] at hcontra
            simp at hcontra

/-- Witness for C4: a one-entry dict summing to 40 is rejected with the
actual sum 40. -/
theorem claim_C4_witness :
    validate_workplan (PyObj.dict [("a", Value.vInt 40)]) =
      Except.error (ValidationError.valuesDontSumTo100 40) :=
  claim_C4.1 [("a", Value.vInt 40)] (by decide) (by decide)

/-- C5: for every dict containing at least one value that is not an integer
(not an instance of `int` in Python's sense, which also rules out the exact
type `int`), `validate_workplan` raises `ValuesNotTypeInt`, and the error
message enumerates the types of exactly the offending non-integer values. -/
theorem claim_C5 (entries : List (String × Value))
    (h : (entries.map Prod.snd).any (fun v => !v.isInstInt) = true) :
    validate_workplan (PyObj.dict entries) = Except.error
      (ValidationError.valuesNotTypeInt
        (((entries.map Prod.snd).filter (fun v => !v.isInstInt)).map
          Value.typeName)) ∧
    errorMessage (ValidationError.valuesNotTypeInt
        (((entries.map Prod.snd).filter (fun v => !v.isInstInt)).map
          Value.typeName)) =
      "All workplan values must be integers, instead received type(s): "
        ++ toString (((entries.map Prod.snd).filter (fun v => !v.isInstInt)).map
          Value.typeName) ++ "." := by
  refine ⟨?_, rfl⟩
  have hall : (entries.map Prod.snd).all Value.typeIsInt = false := by
    obtain ⟨v, hv, hvi⟩ := List.any_eq_true.mp h
    refine List.all_eq_false.mpr ⟨v, hv, fun hti => ?_⟩
    rw [typeIsInt_imp_isInstInt v hti] at hvi
    simp at hvi
  rw [validate_dict_def, if_neg (by simp [hall])]

/-- Witness for C5: a dict with a `float` value is rejected and the message
enumerates the offending type `float`. -/
theorem claim_C5_witness :
    validate_workplan (PyObj.dict [("a", Value.vFloat), ("b", Value.vInt 100)])
      = Except.error (ValidationError.valuesNotTypeInt ["float"]) :=
  (claim_C5 [("a", Value.vFloat), ("b", Value.vInt 100)] (by decide)).1

/-- C6: for every input that is not a dict, `validate_workplan` raises
`InvalidParameterType` carrying the actual type received, and the message
reports that type; since the non-dict branch carries no values, neither the
integer-type nor the sum check can fire on such an input. -/
theorem claim_C6 (tyName : String) :
    validate_workplan (PyObj.nonDict tyName) =
      Except.error (ValidationError.invalidParameterType tyName) ∧
    errorMessage (ValidationError.invalidParameterType tyName) =
      "The workplan parameter expects a dictionary, but received "
        ++ tyName ++ "." :=
  ⟨rfl, rfl⟩

/-- C7: `validate_workplan` has no boolean-false return path: every call
either returns `True` or raises a typed error; consequently
`position_radarchart` agrees everywhere with the variant from which the
falsy-validation `else` branch has been removed — that branch is
unreachable. -/
theorem claim_C7 :
    (∀ wp : PyObj, validate_workplan wp = Except.ok true ∨
      ∃ e, validate_workplan wp = Except.error e) ∧
    (∀ (title : String) (wp : PyObj),
      position_radarchart title wp = position_radarchart_no_else title wp) := by
  constructor
  · intro wp
    cases hv : validate_workplan wp with
    | error e => exact Or.inr ⟨e, rfl⟩
    | ok b =>
        have hb := validate_ok_true wp b hv
        subst hb
        exact Or.inl rfl
  · intro title wp
    cases hv : validate_workplan wp with
    | error e =>
        simp [position_radarchart, position_radarchart_no_else, hv]
    | ok b =>
        have hb := validate_ok_true wp b hv
        subst hb
        simp [position_radarchart, position_radarchart_no_else, hv]

/-- C8: whenever validation raises, `position_radarchart` propagates exactly
the same typed error and never produces a figure. -/
theorem claim_C8 (title : String) (wp : PyObj) (e : ValidationError)
    (h : validate_workplan wp = Except.error e) :
    position_radarchart title wp = Except.error e ∧
      isFigure (position_radarchart title wp) = false := by
  have hp : position_radarchart title wp = Except.error e := by
    simp [position_radarchart, h]
  exact ⟨hp, by rw [hp]; rfl⟩

/-- Witness for C8: a list passed as workplan makes `validate_workplan`
raise `InvalidParameterType`, and `position_radarchart` returns that very
error. -/
theorem claim_C8_witness :
    position_radarchart "T" (PyObj.nonDict "list") =
      Except.error (ValidationError.invalidParameterType "list") ∧
    isFigure (position_radarchart "T" (PyObj.nonDict "list")) = false :=
  claim_C8 "T" (PyObj.nonDict "list")
    (ValidationError.invalidParameterType "list") rfl

/-- C9 counterexample: on the spec's worked example the figure title is
`"Auto Mechanic II<br>Responsibilities"` — the line break is the HTML tag
`<br>`, not the character `"\n"` the claim states, so the title is not of
the form `"<title>\nResponsibilities"`. -/
theorem claim_C9_counterexample :
    chartTitle (position_radarchart "Auto Mechanic II"
        (PyObj.dict autoMechanicWorkplan)) =
      some "Auto Mechanic II<br>Responsibilities" ∧
    some ("Auto Mechanic II" ++ "\n" ++ "Responsibilities") ≠
      some "Auto Mechanic II<br>Responsibilities" := by
  refine ⟨?_, by decide⟩
  obtain ⟨m, hm⟩ := validate_ok_max autoMechanicWorkplan autoMechanic_validate_ok
  rw [build_spec "Auto Mechanic II" autoMechanicWorkplan 40
    autoMechanic_validate_ok rfl]
  rfl

/-- C9 (amended): for every title and every workplan passing validation,
the figure's title is exactly the given title followed by the HTML line
break `"<br>"` and the word `Responsibilities` (rendered as a two-line
heading), so the title text contains the given title as a prefix. -/
theorem claim_C9 (title : String) (entries : List (String × Value))
    (h : validate_workplan (PyObj.dict entries) = Except.ok true) :
    chartTitle (position_radarchart title (PyObj.dict entries)) =
      some (title ++ "<br>" ++ "Responsibilities") := by
  obtain ⟨m, hm⟩ := validate_ok_max entries h
  rw [build_spec title entries m h hm]
  simp [chartTitle, String.append_assoc]

/-- Witness for C9: the worked example's title. -/
theorem claim_C9_witness :
    chartTitle (position_radarchart "Auto Mechanic II"
        (PyObj.dict autoMechanicWorkplan)) =
      some ("Auto Mechanic II" ++ "<br>" ++ "Responsibilities") :=
  claim_C9 "Auto Mechanic II" autoMechanicWorkplan autoMechanic_validate_ok

/-- C10: a dict containing a negative integer value passes validation
(no check rejects negative values) and reaches chart construction. -/
theorem claim_C10 :
    validate_workplan
        (PyObj.dict [("a", Value.vInt (-10)), ("b", Value.vInt 110)]) =
      Except.ok true ∧
    isFigure (position_radarchart "Job"
        (PyObj.dict [("a", Value.vInt (-10)), ("b", Value.vInt 110)])) =
      true := by
  constructor
  · rw [validate_dict_def, if_pos (by decide), if_pos (by decide)]
  · rfl

end PositionDescription
